import Mathlib

/-!
Shallow embedding of the ai-news-summarizer repository (src/main_lang.py and
src/replit.py) and verification of its specification claims.

The repository is a three-stage pipeline (retrieval, enrichment, condensation)
with two near-duplicate implementations.  External effects are made explicit:
the HTTP client is a parameter `http : String → HttpResponse` (the source calls
`requests.get`), the inference service is a parameter
`llm : String → Except PyErr String` (the source calls `llm.generate`, whose
failures surface as Python exceptions, modelled with `Except`), and Python
dictionaries whose keys may be absent are modelled with `Option` fields.
A bracket access `d["k"]` on a possibly-missing key is `getKey`, which raises
a modelled `KeyError`; `d.get("k", default)` is `Option.getD`.
-/

/-- A modelled Python exception: either a `KeyError` on a dictionary access or
an error raised by the remote inference call (`llm.generate`). -/
inductive PyErr where
  | keyError (key : String)
  | llmErr (msg : String)
  deriving DecidableEq

/-- Bracket access `d["k"]` on a dictionary field that may be absent:
returns the value, or raises a modelled `KeyError` naming the key. -/
def getKey (v : Option String) (k : String) : Except PyErr String :=
  match v with
  | some s => Except.ok s
  | none => Except.error (PyErr.keyError k)

/-- A news article as delivered by the search API: the `title` and
`description` keys may each be absent (`none`). -/
structure Article where
  title : Option String
  description : Option String
  deriving DecidableEq

/-- The record built by the enrichment stage, as a Python dictionary whose
keys may in principle be absent; the producers below always fill all three. -/
structure ARec where
  title : Option String
  sentiment : Option String
  categories : Option String
  deriving DecidableEq

/-- The record built by the condensation stage: `{"title": ..., "summary": ...}`. -/
structure Summary where
  title : String
  summary : String
  deriving DecidableEq

/-- One network call made by the program: an HTTP GET to the search API, or a
remote inference request. -/
inductive NetCall where
  | httpGet (url : String)
  | inference (prompt : String)
  deriving DecidableEq

/-- The response of the search API: HTTP status code, and the `articles` key of
the JSON body (`none` when the body lacks that key). -/
structure HttpResponse where
  status : Nat
  articles : Option (List Article)

/-- What the retrieval functions return in Python: either the article list, or
the dictionary `\x7b"error": msg\x7d`. -/
inductive FetchResult where
  | articles (l : List Article)
  | error (msg : String)
  deriving DecidableEq

/-- Python truthiness of a string: `if query:` is true iff the string is nonempty. -/
def pyTruthy (s : String) : Bool := !s.isEmpty

/-- The search URL built in src/main_lang.py line 26 and src/replit.py line 29. -/
def newsUrl (api_key query : String) : String :=
  "https://newsapi.org/v2/everything?q=" ++ query ++ "&apiKey=" ++ api_key

/-- src/main_lang.py, `fetch_news` (lines 22-31): one `requests.get`; on
status 200 return `response.json().get("articles", [])`, otherwise the error
dictionary.  The second component is the list of network calls performed. -/
def fetch_news (http : String → HttpResponse) (api_key query : String) :
    FetchResult × List NetCall :=
  let url := newsUrl api_key query
  let response := http url
  (if response.status == 200 then
    FetchResult.articles (response.articles.getD [])
   else
    FetchResult.error "Failed to fetch news",
   [NetCall.httpGet url])

/-- src/replit.py, `NewsCrawlerAgent.execute` (lines 26-34): one
`requests.get`; on status 200 return `response.json()["articles"]` (an
unguarded access that raises `KeyError` when the body has no `articles` key),
otherwise the error dictionary. -/
def NewsCrawlerAgent.execute (http : String → HttpResponse)
    (api_key query : String) : Except PyErr FetchResult × List NetCall :=
  let url := newsUrl api_key query
  let response := http url
  (if response.status == 200 then
    match response.articles with
    | some l => Except.ok (FetchResult.articles l)
    | none => Except.error (PyErr.keyError "articles")
   else
    Except.ok (FetchResult.error "Failed to fetch news"),
   [NetCall.httpGet url])

/-- src/main_lang.py, `analyze_articles` (lines 33-42): for each article with a
`description` key, two inference calls, then append
`\x7b"title": article.get("title", ""), "sentiment": ..., "categories": ...\x7d`;
articles without the key are skipped.  An inference error aborts the loop and
propagates (Python exception semantics). -/
def analyze_articles (llm : String → Except PyErr String) :
    List Article → Except PyErr (List ARec)
  | [] => Except.ok []
  | a :: rest =>
    match a.description with
    | none => analyze_articles llm rest
    | some d =>
      match llm ("Analyze the sentiment of this text: " ++ d) with
      | Except.error e => Except.error e
      | Except.ok sentiment =>
        match llm ("Categorize this news article: " ++ d) with
        | Except.error e => Except.error e
        | Except.ok categories =>
          match analyze_articles llm rest with
          | Except.error e => Except.error e
          | Except.ok tail =>
            Except.ok ({ title := some (a.title.getD ""),
                         sentiment := some sentiment,
                         categories := some categories } :: tail)

/-- src/replit.py, `NewsAnalystAgent.execute` (lines 40-47): like
`analyze_articles` but with unguarded bracket accesses `article["description"]`
and `article["title"]`, which raise `KeyError` when the key is absent. -/
def NewsAnalystAgent.execute (llm : String → Except PyErr String) :
    List Article → Except PyErr (List ARec)
  | [] => Except.ok []
  | a :: rest =>
    match getKey a.description "description" with
    | Except.error e => Except.error e
    | Except.ok d =>
      match llm ("Analyze the sentiment of this text: " ++ d) with
      | Except.error e => Except.error e
      | Except.ok sentiment =>
        match llm ("Categorize this news article: " ++ d) with
        | Except.error e => Except.error e
        | Except.ok categories =>
          match getKey a.title "title" with
          | Except.error e => Except.error e
          | Except.ok t =>
            match NewsAnalystAgent.execute llm rest with
            | Except.error e => Except.error e
            | Except.ok tail =>
              Except.ok ({ title := some t,
                           sentiment := some sentiment,
                           categories := some categories } :: tail)

/-- src/main_lang.py, `summarize_articles` (lines 44-51): for each analyzed
record, bracket accesses to `title`, `sentiment`, `categories`, one inference
call, then append `\x7b"title": article["title"], "summary": summary\x7d`. -/
def summarize_articles (llm : String → Except PyErr String) :
    List ARec → Except PyErr (List Summary)
  | [] => Except.ok []
  | r :: rest =>
    match getKey r.title "title" with
    | Except.error e => Except.error e
    | Except.ok t =>
      match getKey r.sentiment "sentiment" with
      | Except.error e => Except.error e
      | Except.ok s =>
        match getKey r.categories "categories" with
        | Except.error e => Except.error e
        | Except.ok c =>
          match llm ("Summarize this article: " ++ t ++ " - " ++ s ++ " - " ++ c) with
          | Except.error e => Except.error e
          | Except.ok summary =>
            match summarize_articles llm rest with
            | Except.error e => Except.error e
            | Except.ok tail => Except.ok ({ title := t, summary := summary } :: tail)

/-- src/replit.py, `NewsSummarizerAgent.execute` (lines 53-59): textually the
same loop as `summarize_articles`. -/
def NewsSummarizerAgent.execute (llm : String → Except PyErr String) :
    List ARec → Except PyErr (List Summary)
  | [] => Except.ok []
  | r :: rest =>
    match getKey r.title "title" with
    | Except.error e => Except.error e
    | Except.ok t =>
      match getKey r.sentiment "sentiment" with
      | Except.error e => Except.error e
      | Except.ok s =>
        match getKey r.categories "categories" with
        | Except.error e => Except.error e
        | Except.ok c =>
          match llm ("Summarize this article: " ++ t ++ " - " ++ s ++ " - " ++ c) with
          | Except.error e => Except.error e
          | Except.ok summary =>
            match NewsSummarizerAgent.execute llm rest with
            | Except.error e => Except.error e
            | Except.ok tail => Except.ok ({ title := t, summary := summary } :: tail)

/-- src/main_lang.py, `run_news_summarization` (lines 63-66): `if not query:`
return the fixed string, else hand the query to the reactive agent.  The agent
(`agent.run`, a langchain object) is a parameter returning its result together
with the network calls it makes; the early-return branch makes none. -/
def run_news_summarization (agentRun : String → String × List NetCall)
    (query : String) : String × List NetCall :=
  if !(pyTruthy query) then ("No query provided.", []) else agentRun query

/-- src/replit.py, `NewsSummarizationApp.run` (lines 86-115): `if not query:`
return the fixed string, else build the three tasks and call `crew.kickoff()`.
The crew (a crewai object) is a parameter returning its result together with
the network calls it makes; the early-return branch makes none. -/
def NewsSummarizationApp.run (kickoff : String → String × List NetCall)
    (query : String) : String × List NetCall :=
  if !(pyTruthy query) then ("No query provided.", []) else kickoff query

/-- An HTTP request to the Flask app: its method and the value of the `query`
form field (`request.form.get("query")`, `none` when absent). -/
structure HttpRequest where
  method : String
  form_query : Option String

/-- What the `home` route renders: the input form (HOME_TEMPLATE) or the
result page (RESULT_TEMPLATE with the query and the pipeline result). -/
inductive RenderedPage where
  | homeForm
  | resultPage (query result : String)
  deriving DecidableEq

/-- src/replit.py, `home` (lines 121-128): on POST with a truthy `query` form
field, run the pipeline and render the result page; in every other case render
the input form. -/
def home (run : String → String) (req : HttpRequest) : RenderedPage :=
  if req.method == "POST" then
    match req.form_query with
    | some q =>
      if pyTruthy q then RenderedPage.resultPage q (run q) else RenderedPage.homeForm
    | none => RenderedPage.homeForm
  else RenderedPage.homeForm

/-- Outcome of the whole pipeline: the structured error object returned by the
retrieval stage, or the final summary list. -/
inductive PipelineOut where
  | errorObj (msg : String)
  | summaries (l : List Summary)
  deriving DecidableEq

/-- Modelled from the spec: the orchestration of src/main_lang.py (line 66,
`agent.run`, performed by the external langchain agent handed the three tools)
is, per the spec, the fixed linear chain retrieval, then enrichment, then
condensation, stopping at the retrieval stage's error object. -/
def pipeline_main (http : String → HttpResponse)
    (llm : String → Except PyErr String) (api_key query : String) :
    Except PyErr PipelineOut :=
  match (fetch_news http api_key query).1 with
  | FetchResult.error msg => Except.ok (PipelineOut.errorObj msg)
  | FetchResult.articles arts =>
    match analyze_articles llm arts with
    | Except.error e => Except.error e
    | Except.ok recs =>
      match summarize_articles llm recs with
      | Except.error e => Except.error e
      | Except.ok out => Except.ok (PipelineOut.summaries out)

/-- Modelled from the spec: the orchestration of src/replit.py (lines 90-115,
`crew.kickoff`, performed by the external crewai supervisor over the three
tasks) is the same fixed linear chain over the replit agents. -/
def pipeline_replit (http : String → HttpResponse)
    (llm : String → Except PyErr String) (api_key query : String) :
    Except PyErr PipelineOut :=
  match (NewsCrawlerAgent.execute http api_key query).1 with
  | Except.error e => Except.error e
  | Except.ok (FetchResult.error msg) => Except.ok (PipelineOut.errorObj msg)
  | Except.ok (FetchResult.articles arts) =>
    match NewsAnalystAgent.execute llm arts with
    | Except.error e => Except.error e
    | Except.ok recs =>
      match NewsSummarizerAgent.execute llm recs with
      | Except.error e => Except.error e
      | Except.ok out => Except.ok (PipelineOut.summaries out)

/-! Concrete fixtures used to witness the theorems below. -/

/-- A deterministic inference service that succeeds on every prompt, echoing it. -/
def llmOk : String → Except PyErr String := fun p => Except.ok p

/-- An inference service that fails on every prompt. -/
def llmFail : String → Except PyErr String := fun _ => Except.error (PyErr.llmErr "boom")

/-- An orchestrator that performs one search-API call and returns a fixed result. -/
def agentRun0 : String → String × List NetCall :=
  fun _ => ("some result", [NetCall.httpGet (newsUrl "k" "x")])

/-- An HTTP client whose every response has status 200 and one article. -/
def http200 : String → HttpResponse :=
  fun _ => { status := 200, articles := some [{ title := some "t1", description := some "d1" }] }

/-- An HTTP client whose every response has status 200 and a body with no
articles key. -/
def http200noKey : String → HttpResponse :=
  fun _ => { status := 200, articles := none }

/-- An HTTP client whose every response has status 404. -/
def http404 : String → HttpResponse :=
  fun _ => { status := 404, articles := none }

/-- A one-article input list whose article has both keys. -/
def arts1 : List Article := [{ title := some "t1", description := some "d1" }]

/-- The enrichment of `arts1` under `llmOk` (which echoes its prompt). -/
def recs1 : List ARec :=
  [{ title := some "t1",
     sentiment := some "Analyze the sentiment of this text: d1",
     categories := some "Categorize this news article: d1" }]

/-- A well-formed enriched record list used by the condensation witnesses. -/
def recsW : List ARec :=
  [{ title := some "t", sentiment := some "s", categories := some "c" }]

/-- The condensation of `recsW` under `llmOk`. -/
def sumW : List Summary :=
  [{ title := "t", summary := "Summarize this article: t - s - c" }]

/-! Helper lemmas shared by the claim theorems. -/

/-- The replit condensation loop is the same function as the main_lang one. -/
theorem execute_eq_summarize (llm : String → Except PyErr String) :
    ∀ recs : List ARec, NewsSummarizerAgent.execute llm recs = summarize_articles llm recs
  | [] => rfl
  | r :: rest => by
    simp only [NewsSummarizerAgent.execute, summarize_articles,
      execute_eq_summarize llm rest]

/-- Shape of a successful condensation: one output record per input record,
in order, with each output title the (present) input title. -/
theorem summarize_ok_shape (llm : String → Except PyErr String) :
    ∀ (recs : List ARec) (out : List Summary),
      summarize_articles llm recs = Except.ok out →
      out.map (fun s => some s.title) = recs.map (fun r => r.title)
  | [], out, h => by
    simp only [summarize_articles, Except.ok.injEq] at h
    simp [← h]
  | r :: rest, out, h => by
    simp only [summarize_articles] at h
    split at h
    · exact absurd h (by simp)
    rename_i t ht
    split at h
    · exact absurd h (by simp)
    rename_i s hs
    split at h
    · exact absurd h (by simp)
    rename_i c hc
    split at h
    · exact absurd h (by simp)
    rename_i summary hsum
    split at h
    · exact absurd h (by simp)
    rename_i tail htail
    cases h
    have ih := summarize_ok_shape llm rest tail htail
    have ht' : r.title = some t := by
      cases hrt : r.title with
      | none => rw [hrt] at ht; exact absurd ht (by simp [getKey])
      | some v => rw [hrt] at ht; simpa [getKey] using ht
    simp [ih, ht']

/-- Any error result of the condensation loop on well-formed records (all
three keys present) originates in some inference call: no `KeyError` is
raised and no error is produced by the loop itself. -/
theorem summarize_error_origin (llm : String → Except PyErr String) :
    ∀ recs : List ARec,
      (∀ r ∈ recs, r.title.isSome ∧ r.sentiment.isSome ∧ r.categories.isSome) →
      ∀ e : PyErr, summarize_articles llm recs = Except.error e →
      ∃ p, llm p = Except.error e
  | [], _, e, h => by simp [summarize_articles] at h
  | r :: rest, hwf, e, h => by
    obtain ⟨hT, hS, hC⟩ := hwf r (List.mem_cons_self r rest)
    simp only [summarize_articles] at h
    split at h
    · rename_i e' hbad
      cases hrt : r.title with
      | none => rw [hrt] at hT; simp at hT
      | some v => rw [hrt] at hbad; simp [getKey] at hbad
    rename_i t ht
    split at h
    · rename_i e' hbad
      cases hrs : r.sentiment with
      | none => rw [hrs] at hS; simp at hS
      | some v => rw [hrs] at hbad; simp [getKey] at hbad
    rename_i s hs
    split at h
    · rename_i e' hbad
      cases hrc : r.categories with
      | none => rw [hrc] at hC; simp at hC
      | some v => rw [hrc] at hbad; simp [getKey] at hbad
    rename_i c hc
    split at h
    · rename_i e' hl
      injection h with h'
      subst h'
      exact ⟨_, hl⟩
    rename_i summary hsum
    split at h
    · rename_i e' htail
      injection h with h'
      subst h'
      exact summarize_error_origin llm rest
        (fun r' hr' => hwf r' (List.mem_cons_of_mem r hr')) _ htail
    · exact absurd h (by simp)

/-- Shape of a successful enrichment (main_lang): one output record per input
article having a description key, in order, each output title being the input
title with `""` as default, and every output record carrying all three keys. -/
theorem analyze_ok_shape (llm : String → Except PyErr String) :
    ∀ (arts : List Article) (out : List ARec),
      analyze_articles llm arts = Except.ok out →
      out.map (fun r => r.title) =
        (arts.filter (fun a => a.description.isSome)).map
          (fun a => some (a.title.getD "")) ∧
      ∀ r ∈ out, r.title.isSome ∧ r.sentiment.isSome ∧ r.categories.isSome
  | [], out, h => by
    simp only [analyze_articles, Except.ok.injEq] at h
    simp [← h]
  | a :: rest, out, h => by
    simp only [analyze_articles] at h
    split at h
    · rename_i hd
      have ih := analyze_ok_shape llm rest out h
      simpa [List.filter_cons, hd] using ih
    rename_i d hd
    split at h
    · exact absurd h (by simp)
    rename_i s hs
    split at h
    · exact absurd h (by simp)
    rename_i c hc
    split at h
    · exact absurd h (by simp)
    rename_i tail htail
    cases h
    have ih := analyze_ok_shape llm rest tail htail
    refine ⟨by simp [List.filter_cons, hd, ih.1], ?_⟩
    intro r hr
    rcases List.mem_cons.mp hr with hr | hr
    · subst hr; simp
    · exact ih.2 r hr

/-- Any error result of the main_lang enrichment loop originates in some
inference call: the loop itself raises nothing and catches nothing. -/
theorem analyze_error_origin (llm : String → Except PyErr String) :
    ∀ (arts : List Article) (e : PyErr),
      analyze_articles llm arts = Except.error e → ∃ p, llm p = Except.error e
  | [], e, h => by simp [analyze_articles] at h
  | a :: rest, e, h => by
    simp only [analyze_articles] at h
    split at h
    · exact analyze_error_origin llm rest e h
    rename_i d hd
    split at h
    · rename_i e' hl
      injection h with h'
      subst h'
      exact ⟨_, hl⟩
    rename_i s hs
    split at h
    · rename_i e' hl
      injection h with h'
      subst h'
      exact ⟨_, hl⟩
    rename_i c hc
    split at h
    · rename_i e' htail
      injection h with h'
      subst h'
      exact analyze_error_origin llm rest _ htail
    · exact absurd h (by simp)

/-- Any error result of the replit enrichment loop on articles that carry both
a title and a description originates in some inference call. -/
theorem analyst_error_origin (llm : String → Except PyErr String) :
    ∀ arts : List Article,
      (∀ a ∈ arts, a.title.isSome ∧ a.description.isSome) →
      ∀ e : PyErr, NewsAnalystAgent.execute llm arts = Except.error e →
      ∃ p, llm p = Except.error e
  | [], _, e, h => by simp [NewsAnalystAgent.execute] at h
  | a :: rest, hwf, e, h => by
    obtain ⟨hT, hD⟩ := hwf a (List.mem_cons_self a rest)
    simp only [NewsAnalystAgent.execute] at h
    split at h
    · rename_i e' hbad
      cases had : a.description with
      | none => rw [had] at hD; simp at hD
      | some v => rw [had] at hbad; simp [getKey] at hbad
    rename_i d hd
    split at h
    · rename_i e' hl
      injection h with h'
      subst h'
      exact ⟨_, hl⟩
    rename_i s hs
    split at h
    · rename_i e' hl
      injection h with h'
      subst h'
      exact ⟨_, hl⟩
    rename_i c hc
    split at h
    · rename_i e' hbad
      cases hat : a.title with
      | none => rw [hat] at hT; simp at hT
      | some v => rw [hat] at hbad; simp [getKey] at hbad
    rename_i t ht
    split at h
    · rename_i e' htail
      injection h with h'
      subst h'
      exact analyst_error_origin llm rest
        (fun a' ha' => hwf a' (List.mem_cons_of_mem a ha')) _ htail
    · exact absurd h (by simp)

/-! Claim theorems. -/

/-- Claim C1, counterexample: the query " " consists only of whitespace, yet
`run_news_summarization` does not return the no-query result (Python
truthiness only intercepts the empty string), and the orchestrator's network
calls are performed; likewise for `NewsSummarizationApp.run`. -/
theorem C1_counterexample :
    (" ").toList.all Char.isWhitespace = true ∧
    run_news_summarization agentRun0 " " ≠ ("No query provided.", ([] : List NetCall)) ∧
    (run_news_summarization agentRun0 " ").2 ≠ ([] : List NetCall) ∧
    NewsSummarizationApp.run agentRun0 " " ≠ ("No query provided.", ([] : List NetCall)) := by
  refine ⟨?_, ?_, ?_, ?_⟩ <;> decide

/-- Claim C1 (amended): for every empty query, both pipeline entry points
return the explicit "No query provided." result and perform no network call;
the guard is Python truthiness, so only the empty string is intercepted. -/
theorem C1_empty_query_no_network (agentRun kickoff : String → String × List NetCall)
    (query : String) (h : query = "") :
    run_news_summarization agentRun query = ("No query provided.", []) ∧
    NewsSummarizationApp.run kickoff query = ("No query provided.", []) := by
  subst h
  exact ⟨rfl, rfl⟩

/-- Witness for C1 (amended) at the empty query. -/
theorem C1_empty_query_no_network_witness :
    run_news_summarization agentRun0 "" = ("No query provided.", []) ∧
    NewsSummarizationApp.run agentRun0 "" = ("No query provided.", []) :=
  C1_empty_query_no_network agentRun0 agentRun0 "" rfl

/-- Claim C2: an article lacking the description key is silently dropped by
main_lang's `analyze_articles` (it contributes no record and the loop moves
on), while replit's `NewsAnalystAgent.execute` performs the unguarded access
`article["description"]` and faults with a `KeyError` on that article. -/
theorem C2_missing_description (llm : String → Except PyErr String)
    (a : Article) (rest : List Article) (ha : a.description = none) :
    analyze_articles llm (a :: rest) = analyze_articles llm rest ∧
    NewsAnalystAgent.execute llm (a :: rest) =
      Except.error (PyErr.keyError "description") := by
  constructor
  · simp [analyze_articles, ha]
  · simp [NewsAnalystAgent.execute, ha, getKey]

/-- Witness for C2 at a concrete description-less article. -/
theorem C2_missing_description_witness :
    analyze_articles llmOk [{ title := some "t", description := none }] =
      analyze_articles llmOk [] ∧
    NewsAnalystAgent.execute llmOk [{ title := some "t", description := none }] =
      Except.error (PyErr.keyError "description") :=
  C2_missing_description llmOk { title := some "t", description := none } [] rfl

/-- Claim C3, counterexample: an article whose description key is present but
empty still produces an enrichment record (the guard is key presence, not
non-emptiness), though the claim says an article with an empty description
contributes no record. -/
theorem C3_counterexample :
    (analyze_articles llmOk [{ title := some "t", description := some "" }]).map
        List.length = Except.ok 1 ∧
    (([{ title := some "t", description := some "" }] : List Article).filter
        (fun a => !(a.description.getD "").isEmpty)).length = 0 := by
  exact ⟨rfl, rfl⟩

/-- Claim C3 (amended): whenever main_lang's enrichment returns a list, it has
exactly one record per input article that has a description key — present but
empty descriptions included — in input order, and each record's title is the
input article's title when present and "" when the title key is absent. -/
theorem C3_one_record_per_description_key (llm : String → Except PyErr String)
    (arts : List Article) (out : List ARec)
    (h : analyze_articles llm arts = Except.ok out) :
    out.length = (arts.filter (fun a => a.description.isSome)).length ∧
    out.map (fun r => r.title) =
      (arts.filter (fun a => a.description.isSome)).map
        (fun a => some (a.title.getD "")) := by
  have hs := (analyze_ok_shape llm arts out h).1
  refine ⟨?_, hs⟩
  have hlen := congrArg List.length hs
  simpa using hlen

/-- Witness for C3 (amended) on a one-article list. -/
theorem C3_one_record_per_description_key_witness :
    recs1.length = (arts1.filter (fun a => a.description.isSome)).length ∧
    recs1.map (fun r => r.title) =
      (arts1.filter (fun a => a.description.isSome)).map
        (fun a => some (a.title.getD "")) :=
  C3_one_record_per_description_key llmOk arts1 recs1 rfl

/-- Claim C4: for every search response with a non-200 status, both pipelines
return the structured error object, and neither enrichment nor condensation is
executed on any article: the outcome is entirely independent of the inference
service. -/
theorem C4_non200_short_circuits (http : String → HttpResponse)
    (llm llm2 : String → Except PyErr String) (api_key query : String)
    (h : (http (newsUrl api_key query)).status ≠ 200) :
    pipeline_main http llm api_key query =
      Except.ok (PipelineOut.errorObj "Failed to fetch news") ∧
    pipeline_replit http llm api_key query =
      Except.ok (PipelineOut.errorObj "Failed to fetch news") ∧
    pipeline_main http llm api_key query = pipeline_main http llm2 api_key query ∧
    pipeline_replit http llm api_key query = pipeline_replit http llm2 api_key query := by
  have hb : ((http (newsUrl api_key query)).status == 200) = false := by
    simpa using h
  refine ⟨?_, ?_, ?_, ?_⟩ <;>
    simp [pipeline_main, pipeline_replit, fetch_news, NewsCrawlerAgent.execute, hb]

/-- Witness for C4 at a 404 response. -/
theorem C4_non200_short_circuits_witness :
    pipeline_main http404 llmOk "k" "q" =
      Except.ok (PipelineOut.errorObj "Failed to fetch news") ∧
    pipeline_replit http404 llmOk "k" "q" =
      Except.ok (PipelineOut.errorObj "Failed to fetch news") ∧
    pipeline_main http404 llmOk "k" "q" = pipeline_main http404 llmFail "k" "q" ∧
    pipeline_replit http404 llmOk "k" "q" = pipeline_replit http404 llmFail "k" "q" :=
  C4_non200_short_circuits http404 llmOk llmFail "k" "q" (by decide)

/-- Claim C5: for every non-empty query and API key, each retrieval client
performs exactly one HTTP GET (to the constructed search URL); on status 200
with an articles array both return that list, and on any non-200 status both
return the error object. -/
theorem C5_single_get (http : String → HttpResponse) (api_key query : String)
    (arts : List Article) (hq : query ≠ "") :
    (fetch_news http api_key query).2 = [NetCall.httpGet (newsUrl api_key query)] ∧
    (NewsCrawlerAgent.execute http api_key query).2 =
      [NetCall.httpGet (newsUrl api_key query)] ∧
    ((http (newsUrl api_key query)).status = 200 →
      (http (newsUrl api_key query)).articles = some arts →
      (fetch_news http api_key query).1 = FetchResult.articles arts ∧
      (NewsCrawlerAgent.execute http api_key query).1 =
        Except.ok (FetchResult.articles arts)) ∧
    ((http (newsUrl api_key query)).status ≠ 200 →
      (fetch_news http api_key query).1 = FetchResult.error "Failed to fetch news" ∧
      (NewsCrawlerAgent.execute http api_key query).1 =
        Except.ok (FetchResult.error "Failed to fetch news")) := by
  refine ⟨rfl, rfl, ?_, ?_⟩
  · intro h200 harts
    constructor <;> simp [fetch_news, NewsCrawlerAgent.execute, h200, harts]
  · intro hne
    have hb : ((http (newsUrl api_key query)).status == 200) = false := by
      simpa using hne
    constructor <;> simp [fetch_news, NewsCrawlerAgent.execute, hb]

/-- Witness for C5 at a 200 response carrying one article. -/
theorem C5_single_get_witness :
    (fetch_news http200 "k" "q").2 = [NetCall.httpGet (newsUrl "k" "q")] ∧
    (fetch_news http200 "k" "q").1 =
      FetchResult.articles [{ title := some "t1", description := some "d1" }] ∧
    (NewsCrawlerAgent.execute http200 "k" "q").1 =
      Except.ok (FetchResult.articles [{ title := some "t1", description := some "d1" }]) := by
  have h := C5_single_get http200 "k" "q"
    [{ title := some "t1", description := some "d1" }] (by decide)
  have h2 := h.2.2.1 rfl rfl
  exact ⟨h.1, h2.1, h2.2⟩

/-- Claim C6: whenever the condensation step returns a list, it has the same
number of elements as its input and the same title sequence in the same order
(no reordering, duplication or deduplication), in both implementations. -/
theorem C6_condensation_preserves_titles (llm : String → Except PyErr String)
    (recs : List ARec) :
    (∀ out, summarize_articles llm recs = Except.ok out →
      out.length = recs.length ∧
      out.map (fun s => some s.title) = recs.map (fun r => r.title)) ∧
    (∀ out, NewsSummarizerAgent.execute llm recs = Except.ok out →
      out.length = recs.length ∧
      out.map (fun s => some s.title) = recs.map (fun r => r.title)) := by
  have key : ∀ out, summarize_articles llm recs = Except.ok out →
      out.length = recs.length ∧
      out.map (fun s => some s.title) = recs.map (fun r => r.title) := by
    intro out h
    have hs := summarize_ok_shape llm recs out h
    refine ⟨?_, hs⟩
    have hlen := congrArg List.length hs
    simpa using hlen
  refine ⟨key, fun out h => key out ?_⟩
  rw [← execute_eq_summarize]
  exact h

/-- Witness for C6 on a one-record list, both implementations. -/
theorem C6_condensation_preserves_titles_witness :
    (sumW.length = recsW.length ∧
      sumW.map (fun s => some s.title) = recsW.map (fun r => r.title)) ∧
    (sumW.length = recsW.length ∧
      sumW.map (fun s => some s.title) = recsW.map (fun r => r.title)) :=
  ⟨(C6_condensation_preserves_titles llmOk recsW).1 sumW rfl,
   (C6_condensation_preserves_titles llmOk recsW).2 sumW rfl⟩

/-- Claim C7: inference errors are caught nowhere.  An error in the first
needed inference call aborts enrichment with exactly that error; every error
result of enrichment or condensation (either implementation, on key-complete
input where relevant) is an error returned by some inference call; and no
partial list is ever returned: a returned list always covers every article
the stage was supposed to process. -/
theorem C7_inference_errors_propagate (llm : String → Except PyErr String)
    (a : Article) (d : String) (rest arts arts2 : List Article)
    (recs : List ARec) (e0 : PyErr)
    (hd : a.description = some d)
    (hl : llm ("Analyze the sentiment of this text: " ++ d) = Except.error e0)
    (hwf2 : ∀ b ∈ arts2, b.title.isSome ∧ b.description.isSome)
    (hwfr : ∀ r ∈ recs, r.title.isSome ∧ r.sentiment.isSome ∧ r.categories.isSome) :
    analyze_articles llm (a :: rest) = Except.error e0 ∧
    (∀ e, analyze_articles llm arts = Except.error e → ∃ p, llm p = Except.error e) ∧
    (∀ out, analyze_articles llm arts = Except.ok out →
      out.length = (arts.filter (fun b => b.description.isSome)).length) ∧
    (∀ e, NewsAnalystAgent.execute llm arts2 = Except.error e →
      ∃ p, llm p = Except.error e) ∧
    (∀ e, summarize_articles llm recs = Except.error e → ∃ p, llm p = Except.error e) ∧
    (∀ e, NewsSummarizerAgent.execute llm recs = Except.error e →
      ∃ p, llm p = Except.error e) ∧
    (∀ out, summarize_articles llm recs = Except.ok out → out.length = recs.length) := by
  refine ⟨?_, ?_, ?_, ?_, ?_, ?_, ?_⟩
  · simp [analyze_articles, hd, hl]
  · exact fun e h => analyze_error_origin llm arts e h
  · intro out h
    have hlen := congrArg List.length (analyze_ok_shape llm arts out h).1
    simpa using hlen
  · exact fun e h => analyst_error_origin llm arts2 hwf2 e h
  · exact fun e h => summarize_error_origin llm recs hwfr e h
  · refine fun e h => summarize_error_origin llm recs hwfr e ?_
    rw [← execute_eq_summarize]
    exact h
  · intro out h
    have hlen := congrArg List.length (summarize_ok_shape llm recs out h)
    simpa using hlen

/-- Witness for C7: a failing inference service aborts enrichment with its
error, and that error is one an inference call returned. -/
theorem C7_inference_errors_propagate_witness :
    analyze_articles llmFail [{ title := some "t", description := some "d" }] =
      Except.error (PyErr.llmErr "boom") ∧
    (∃ p, llmFail p = Except.error (PyErr.llmErr "boom")) := by
  have h := C7_inference_errors_propagate llmFail
    { title := some "t", description := some "d" } "d" []
    [{ title := some "t", description := some "d" }]
    [{ title := some "t", description := some "d" }] recsW (PyErr.llmErr "boom")
    rfl rfl (by decide) (by decide)
  exact ⟨h.1, h.2.1 (PyErr.llmErr "boom") h.1⟩

/-- Claim C8: a 200 response whose JSON body lacks the articles key makes
main_lang's `fetch_news` return the empty article list (the `.get` default);
its result is a plain value, not a fault. -/
theorem C8_missing_articles_key_defaults (http : String → HttpResponse)
    (api_key query : String)
    (h200 : (http (newsUrl api_key query)).status = 200)
    (hnone : (http (newsUrl api_key query)).articles = none) :
    (fetch_news http api_key query).1 = FetchResult.articles [] := by
  simp [fetch_news, h200, hnone]

/-- Witness for C8 at a concrete articles-less 200 response. -/
theorem C8_missing_articles_key_defaults_witness :
    (fetch_news http200noKey "k" "q").1 = FetchResult.articles [] :=
  C8_missing_articles_key_defaults http200noKey "k" "q" rfl rfl

/-- Claim C9: every record produced by main_lang's `analyze_articles` carries
the title, sentiment and categories keys, the title being the input article's
title defaulted to "" when absent; consequently `summarize_articles` applied
to any output of `analyze_articles` never faults on a missing key — any error
it produces is one returned by an inference call. -/
theorem C9_enrichment_output_wellformed (llm llm2 : String → Except PyErr String)
    (arts : List Article) (recs : List ARec)
    (h : analyze_articles llm arts = Except.ok recs) :
    (∀ r ∈ recs, r.title.isSome ∧ r.sentiment.isSome ∧ r.categories.isSome) ∧
    recs.map (fun r => r.title) =
      (arts.filter (fun a => a.description.isSome)).map
        (fun a => some (a.title.getD "")) ∧
    (∀ e, summarize_articles llm2 recs = Except.error e →
      ∃ p, llm2 p = Except.error e) := by
  have hs := analyze_ok_shape llm arts recs h
  exact ⟨hs.2, hs.1, fun e he => summarize_error_origin llm2 recs hs.2 e he⟩

/-- Witness for C9: the enrichment of `arts1` is key-complete, and a failing
condensation on it fails with the inference error, not a KeyError. -/
theorem C9_enrichment_output_wellformed_witness :
    (∀ r ∈ recs1, r.title.isSome ∧ r.sentiment.isSome ∧ r.categories.isSome) ∧
    (∃ p, llmFail p = Except.error (PyErr.llmErr "boom")) := by
  have h := C9_enrichment_output_wellformed llmOk llmFail arts1 recs1 rfl
  exact ⟨h.1, h.2.2 (PyErr.llmErr "boom") rfl⟩

/-- Claim C10: a POST to the Flask route "/" whose query form field is absent
or empty renders the input form HOME_TEMPLATE — not an error page — and the
pipeline is not run: the rendered page is independent of the pipeline
function. -/
theorem C10_post_empty_query_renders_form (run run2 : String → String)
    (req : HttpRequest) (hm : req.method = "POST")
    (hq : req.form_query = none ∨ req.form_query = some "") :
    home run req = RenderedPage.homeForm ∧ home run req = home run2 req := by
  have he : "".isEmpty = true := rfl
  rcases hq with hq | hq <;> simp [home, hm, hq, pyTruthy, he]

/-- Witness for C10 at a POST request with no query field. -/
theorem C10_post_empty_query_renders_form_witness :
    home (fun q => q) { method := "POST", form_query := none } =
      RenderedPage.homeForm ∧
    home (fun q => q) { method := "POST", form_query := none } =
      home (fun _ => "other") { method := "POST", form_query := none } :=
  C10_post_empty_query_renders_form (fun q => q) (fun _ => "other")
    { method := "POST", form_query := none } rfl (Or.inl rfl)
